import Mathlib

/-!
Shallow embedding of the soil-monitor service.

The embedding covers `src/hardware/soil_monitor.py` (the backend interface,
the factory/registry, the hardware-backed `_AdafruitStemmaSoilMonitor`, the
simulated `_MockedSoilMonitor`, and the delegating `SoilMonitor` wrapper),
`src/services/soil.py` (`SoilService`), `src/services/health.py`
(`HealthService`) and the startup wiring of `src/app.py`.

Modelling conventions:
- Python exceptions become `Except PyError`; a total Lean function models a
  Python function that cannot raise.
- The process clock (`time.time()`) is passed explicitly as a rational number.
- The random source (`random.randint` / `random.uniform`) is modelled by its
  outcome: `randint a b` is applied to an arbitrary natural outcome selecting
  a value of `[a, b]`, and `uniform a b` to an arbitrary rational outcome `u`
  of `random.random()` (whose contract is `0 ≤ u < 1`). Stateful sequences of
  random draws are modelled by a `RandStream` of pending outcomes.
- Python object identity is modelled by an allocation counter: each backend
  construction consumes a fresh `objId`.
-/

/-- Python values that appear in the JSON-like response payloads: integers,
floats (modelled as rationals) and strings. -/
inductive PyVal where
  | int (z : Int)
  | rat (q : Rat)
  | str (s : String)
deriving DecidableEq, Repr

/-- Python exceptions that the modelled code paths can raise: `KeyError`
(dict subscript miss), `ValueError` (the factory's declared error), and
`AttributeError` (reading an attribute that was never assigned). -/
inductive PyError where
  | keyError (key : String)
  | valueError (key : String)
  | attributeError
deriving DecidableEq, Repr

/-- Python `int()` applied to a real number: truncation toward zero. -/
def pyInt (q : Rat) : Int := if 0 ≤ q then ⌊q⌋ else ⌈q⌉

/-- Python `round()` to the nearest integer, ties going to the even integer. -/
def pyRoundHalfEven (q : Rat) : Int :=
  if q - ⌊q⌋ < 1/2 then ⌊q⌋
  else if 1/2 < q - ⌊q⌋ then ⌊q⌋ + 1
  else if ⌊q⌋ % 2 = 0 then ⌊q⌋ else ⌊q⌋ + 1

/-- Python `round(x, 1)`: rounding to one decimal place (ties to even). -/
def pyRound1 (q : Rat) : Rat := (pyRoundHalfEven (q * 10) : Rat) / 10

/-- Python `random.randint(a, b)`: a uniformly chosen integer `N` with
`a ≤ N ≤ b`.  The outcome parameter `r` selects which of the `b - a + 1`
possible values is drawn. -/
def randint (a b : Int) (r : Nat) : Int := a + (r : Int) % (b - a + 1)

/-- Python `random.uniform(a, b) = a + (b - a) * random()`, where `u` is the
outcome of `random.random()` (contract: `0 ≤ u < 1`). -/
def uniform (a b : Rat) (u : Rat) : Rat := a + (b - a) * u

/-- Pending outcomes of the process-wide random source: one queue for the
integer draws consumed by `randint` and one for the real draws consumed by
`uniform`.  An exhausted queue keeps answering `0`. -/
structure RandStream where
  ints : List Nat
  reals : List Rat
deriving DecidableEq, Repr

/-- Consume the next integer outcome of the random source. -/
def RandStream.takeInt : RandStream → Nat × RandStream
  | ⟨[], rs⟩ => (0, ⟨[], rs⟩)
  | ⟨r :: is, rs⟩ => (r, ⟨is, rs⟩)

/-- Consume the next real outcome of the random source. -/
def RandStream.takeReal : RandStream → Rat × RandStream
  | ⟨is, []⟩ => (0, ⟨is, []⟩)
  | ⟨is, u :: us⟩ => (u, ⟨is, us⟩)

/-- The seesaw driver handle `Seesaw(i2c_bus, addr=0x36)`.  The two fields
record the readings the physical device would deliver. -/
structure Seesaw where
  moisture : Int
  temp : Rat
deriving DecidableEq, Repr

/-- Driver call `ss.moisture_read()`. -/
def Seesaw.moisture_read (d : Seesaw) : Int := d.moisture

/-- Driver call `ss.get_temp()`. -/
def Seesaw.get_temp (d : Seesaw) : Rat := d.temp

/-- Platform state at construction time: whether `board` and
`adafruit_seesaw.seesaw` are present in `sys.modules`, and the device the
I2C bus would expose when the driver is available. -/
structure PlatformState where
  board_loaded : Bool
  seesaw_loaded : Bool
  device : Seesaw
deriving DecidableEq, Repr

/-- State of a `_AdafruitStemmaSoilMonitor` object: the `loaded` flag, and
the `ss` attribute, assigned only when `loaded` remained true. -/
structure _AdafruitStemmaSoilMonitor where
  loaded : Bool
  ss : Option Seesaw
deriving DecidableEq, Repr

/-- Constructor `_AdafruitStemmaSoilMonitor.__init__`: starts with
`loaded = True`, clears it when either driver module is missing from
`sys.modules`, and acquires the bus and device handle only when still
loaded. -/
def _AdafruitStemmaSoilMonitor.init (p : PlatformState) : _AdafruitStemmaSoilMonitor :=
  let loaded := true
  let loaded := if !p.board_loaded then false else loaded
  let loaded := if !p.seesaw_loaded then false else loaded
  { loaded := loaded, ss := if loaded then some p.device else none }

/-- Method `_AdafruitStemmaSoilMonitor.get_soil_saturation`: delegates to the
driver when loaded, otherwise logs and returns the sentinel `-1`. -/
def _AdafruitStemmaSoilMonitor.get_soil_saturation (m : _AdafruitStemmaSoilMonitor) :
    Except PyError Int :=
  if m.loaded then
    match m.ss with
    | some dev => .ok dev.moisture_read
    | none => .error .attributeError
  else
    .ok (-1)

/-- Method `_AdafruitStemmaSoilMonitor.get_air_temp`: delegates to the driver
(rounded to one decimal place) when loaded, otherwise logs and returns the
sentinel `-1`. -/
def _AdafruitStemmaSoilMonitor.get_air_temp (m : _AdafruitStemmaSoilMonitor) :
    Except PyError Rat :=
  if m.loaded then
    match m.ss with
    | some dev => .ok (pyRound1 dev.get_temp)
    | none => .error .attributeError
  else
    .ok (-1)

/-- Method `_AdafruitStemmaSoilMonitor.get_name`. -/
def _AdafruitStemmaSoilMonitor.get_name (_ : _AdafruitStemmaSoilMonitor) : String :=
  "Adafruit Stemma"

/-- Method `_MockedSoilMonitor.get_soil_saturation`:
`random.randint(0, 101)` applied to the outcome `r`. -/
def _MockedSoilMonitor.get_soil_saturation (r : Nat) : Int := randint 0 101 r

/-- Method `_MockedSoilMonitor.get_air_temp`: `random.uniform(0, 50)` applied
to the `random.random()` outcome `u`. -/
def _MockedSoilMonitor.get_air_temp (u : Rat) : Rat := uniform 0 50 u

/-- Method `_MockedSoilMonitor.get_name`. -/
def _MockedSoilMonitor.get_name : String := "Mocked Soil Monitor"

/-- Runtime state of a backend object: either a hardware
`_AdafruitStemmaSoilMonitor` object or a (stateless) `_MockedSoilMonitor`. -/
inductive Monitor where
  | adafruitStemma (m : _AdafruitStemmaSoilMonitor)
  | mocked
deriving DecidableEq, Repr

/-- Dispatch of `get_soil_saturation` on a backend object; the mocked backend
consumes one integer outcome of the random source. -/
def Monitor.get_soil_saturation : Monitor → RandStream → Except PyError (Int × RandStream)
  | .adafruitStemma m, w => (m.get_soil_saturation).map (fun v => (v, w))
  | .mocked, w =>
    let (r, w1) := w.takeInt
    .ok (_MockedSoilMonitor.get_soil_saturation r, w1)

/-- Dispatch of `get_air_temp` on a backend object; the mocked backend
consumes one real outcome of the random source. -/
def Monitor.get_air_temp : Monitor → RandStream → Except PyError (Rat × RandStream)
  | .adafruitStemma m, w => (m.get_air_temp).map (fun v => (v, w))
  | .mocked, w =>
    let (u, w1) := w.takeReal
    .ok (_MockedSoilMonitor.get_air_temp u, w1)

/-- Dispatch of `get_name` on a backend object. -/
def Monitor.get_name : Monitor → String
  | .adafruitStemma m => m.get_name
  | .mocked => _MockedSoilMonitor.get_name

/-- Well-formedness of a backend object state: every state reachable from a
constructor satisfies it (`ss` is assigned whenever `loaded` is set). -/
def Monitor.wf : Monitor → Prop
  | .adafruitStemma m => m.loaded = true → m.ss.isSome = true
  | .mocked => True

/-- A constructed backend object together with its identity (allocation
number), distinguishing distinct objects of the same class. -/
structure Instance where
  monitor : Monitor
  objId : Nat
deriving DecidableEq, Repr

/-- A value stored in the factory's `_soil_monitors` dict: one of the two
backend classes. -/
inductive MonitorCtor where
  | adafruitStemmaCtor
  | mockedCtor
deriving DecidableEq, Repr

/-- Python truthiness of a class object: a class is always truthy, so
`not soil_monitor` is false for every registered constructor. -/
def MonitorCtor.truthy : MonitorCtor → Bool := fun _ => true

/-- Calling a backend class `soil_monitor()`: runs the class constructor and
allocates a fresh object identity. -/
def MonitorCtor.call (c : MonitorCtor) (p : PlatformState) (nextId : Nat) :
    Instance × Nat :=
  match c with
  | .adafruitStemmaCtor => (⟨.adafruitStemma (_AdafruitStemmaSoilMonitor.init p), nextId⟩, nextId + 1)
  | .mockedCtor => (⟨.mocked, nextId⟩, nextId + 1)

/-- Method `SoilMonitorFactory.register_soil_monitor`: dict assignment
`self._soil_monitors[key] = soil_monitor` (replace when present, else
append). -/
def SoilMonitorFactory.register_soil_monitor (d : List (String × MonitorCtor))
    (key : String) (c : MonitorCtor) : List (String × MonitorCtor) :=
  if (d.lookup key).isSome then
    d.map (fun kv => if kv.1 = key then (key, c) else kv)
  else
    d ++ [(key, c)]

/-- Method `SoilMonitorFactory.get_soil_monitor`: the dict subscript
`self._soil_monitors[key]` raises `KeyError(key)` when the key is absent;
then `if not soil_monitor: raise ValueError(key)` checks truthiness of the
stored class; finally `soil_monitor()` constructs and returns a fresh
instance. -/
def SoilMonitorFactory.get_soil_monitor (d : List (String × MonitorCtor))
    (key : String) (p : PlatformState) (nextId : Nat) :
    Except PyError (Instance × Nat) :=
  match d.lookup key with
  | none => .error (.keyError key)
  | some soil_monitor =>
    if soil_monitor.truthy = false then .error (.valueError key)
    else .ok (soil_monitor.call p nextId)

/-- Module-level `_soil_monitor_factory` after the two registrations at the
bottom of `soil_monitor.py`. -/
def _soil_monitor_factory : List (String × MonitorCtor) :=
  SoilMonitorFactory.register_soil_monitor
    (SoilMonitorFactory.register_soil_monitor [] "adafruitstemma" .adafruitStemmaCtor)
    "mocked" .mockedCtor

/-- Constructor `SoilMonitor.__init__`: reads the `soil_monitor` environment
variable (`env = none` when unset), falls back to `"mocked"` when the value
is falsy (unset or empty), and resolves the backend through the factory.
The delegating `SoilMonitor` wrapper forwards all three methods to the
backend it wraps, so it is modelled by the resolved backend instance. -/
def SoilMonitor.init (env : Option String) (p : PlatformState) (nextId : Nat) :
    Except PyError (Instance × Nat) :=
  let _soil_monitor_name := match env with
    | none => "mocked"
    | some s => if s = "" then "mocked" else s
  SoilMonitorFactory.get_soil_monitor _soil_monitor_factory _soil_monitor_name p nextId

/-- Method `SoilService.get_soil_status`: reads saturation, then temperature,
from the module-level backend and packages them as
`{'saturation': saturation, 'temp': temp}` (an association list). -/
def SoilService.get_soil_status (m : Monitor) (w : RandStream) :
    Except PyError (List (String × PyVal) × RandStream) :=
  match m.get_soil_saturation w with
  | .error e => .error e
  | .ok (saturation, w1) =>
    match m.get_air_temp w1 with
    | .error e => .error e
    | .ok (temp, w2) =>
      .ok ([("saturation", .int saturation), ("temp", .rat temp)], w2)

/-- State of a `HealthService` object: the construction-time clock reading
and the `SoilMonitor` the constructor built for itself. -/
structure HealthService where
  _start_time : Rat
  _soil_monitor : Instance
deriving DecidableEq, Repr

/-- Constructor `HealthService.__init__`: captures `time.time()` and builds
its own `SoilMonitor()`. -/
def HealthService.init (now : Rat) (env : Option String) (p : PlatformState)
    (nextId : Nat) : Except PyError (HealthService × Nat) :=
  match SoilMonitor.init env p nextId with
  | .error e => .error e
  | .ok (inst, nextId1) => .ok (⟨now, inst⟩, nextId1)

/-- Method `HealthService._get_total_app_uptime_seconds`:
`int(time.time() - self._start_time)`. -/
def HealthService._get_total_app_uptime_seconds (h : HealthService) (now : Rat) : Int :=
  pyInt (now - h._start_time)

/-- Method `HealthService._get_current_soil_monitor`:
`self._soil_monitor.get_name()`. -/
def HealthService._get_current_soil_monitor (h : HealthService) : String :=
  h._soil_monitor.monitor.get_name

/-- Method `HealthService.get_health`: packages uptime and backend name as
`{'uptime': ..., 'soilMonitor': ...}` (an association list). -/
def HealthService.get_health (h : HealthService) (now : Rat) : List (String × PyVal) :=
  [("uptime", .int (h._get_total_app_uptime_seconds now)),
   ("soilMonitor", .str h._get_current_soil_monitor)]

/-- Process state after startup: the module-level backend of
`services/soil.py` (read by `SoilService`), the `HealthService` (holding its
own backend), and the allocation counter, which equals the number of backend
instances constructed. -/
structure AppState where
  soil_monitor : Instance
  health_service : HealthService
  backends_constructed : Nat
deriving DecidableEq, Repr

/-- Startup of `app.py`: importing `services.soil` constructs the
module-level `soil_monitor = SoilMonitor()`; `SoilService()` allocates no
backend; `HealthService()` captures the clock and constructs a second
`SoilMonitor()`.  An uncaught constructor exception aborts startup. -/
def app_startup (env : Option String) (p : PlatformState) (t0 : Rat) :
    Except PyError AppState :=
  match SoilMonitor.init env p 0 with
  | .error e => .error e
  | .ok (m1, nextId1) =>
    match HealthService.init t0 env p nextId1 with
    | .error e => .error e
    | .ok (hs, nextId2) => .ok ⟨m1, hs, nextId2⟩

/-- The single-backend invariant as the specification states it: startup
constructs exactly one backend instance and both services read from that
same instance. -/
def single_backend_invariant (env : Option String) (p : PlatformState) (t0 : Rat) : Prop :=
  ∀ s, app_startup env p t0 = .ok s →
    s.soil_monitor = s.health_service._soil_monitor ∧ s.backends_constructed = 1

/-- Concrete platform state used to instantiate closed statements: neither
driver module is loaded (the development-machine case). -/
def devPlatform : PlatformState := ⟨false, false, ⟨0, 0⟩⟩

/-- Helper: looking up any key other than the two registered ones misses the
factory dict, so the subscript raises `KeyError(key)`. -/
theorem get_soil_monitor_unregistered (key : String) (p : PlatformState) (n : Nat)
    (h1 : key ≠ "adafruitstemma") (h2 : key ≠ "mocked") :
    SoilMonitorFactory.get_soil_monitor _soil_monitor_factory key p n
      = .error (.keyError key) := by
  have e1 : (key == "adafruitstemma") = false := beq_eq_false_iff_ne.mpr h1
  have e2 : (key == "mocked") = false := beq_eq_false_iff_ne.mpr h2
  simp [SoilMonitorFactory.get_soil_monitor, _soil_monitor_factory,
    SoilMonitorFactory.register_soil_monitor, List.lookup, e1, e2]

/-- C1: for every key that is not registered, `get_soil_monitor(key)` fails —
but with `KeyError(key)` from the dict subscript, never with the declared
`ValueError(key)` (that branch is unreachable because registered class
objects are truthy); for the registered keys `"mocked"` and
`"adafruitstemma"` it succeeds and returns a fresh instance built by the
registered constructor. -/
theorem factory_unknown_key_keyError (key : String) (p : PlatformState) (n : Nat)
    (h1 : key ≠ "adafruitstemma") (h2 : key ≠ "mocked") :
    SoilMonitorFactory.get_soil_monitor _soil_monitor_factory key p n = .error (.keyError key)
    ∧ (∀ (k e : String),
        SoilMonitorFactory.get_soil_monitor _soil_monitor_factory k p n ≠ .error (.valueError e))
    ∧ SoilMonitorFactory.get_soil_monitor _soil_monitor_factory "mocked" p n
        = .ok (⟨.mocked, n⟩, n + 1)
    ∧ SoilMonitorFactory.get_soil_monitor _soil_monitor_factory "adafruitstemma" p n
        = .ok (⟨.adafruitStemma (_AdafruitStemmaSoilMonitor.init p), n⟩, n + 1) := by
  refine ⟨get_soil_monitor_unregistered key p n h1 h2, ?_, rfl, rfl⟩
  intro k e hcontra
  unfold SoilMonitorFactory.get_soil_monitor at hcontra
  cases hlk : List.lookup k _soil_monitor_factory with
  | none => rw [hlk] at hcontra; simp at hcontra
  | some c => rw [hlk] at hcontra; simp [MonitorCtor.truthy] at hcontra

/-- C1 witness: the unregistered key `"nosuchkey"` on the development
platform. -/
theorem factory_unknown_key_keyError_witness :
    "nosuchkey" ≠ "adafruitstemma" ∧ "nosuchkey" ≠ "mocked"
    ∧ (SoilMonitorFactory.get_soil_monitor _soil_monitor_factory "nosuchkey" devPlatform 0
         = .error (.keyError "nosuchkey")
       ∧ (∀ (k e : String),
           SoilMonitorFactory.get_soil_monitor _soil_monitor_factory k devPlatform 0
             ≠ .error (.valueError e))
       ∧ SoilMonitorFactory.get_soil_monitor _soil_monitor_factory "mocked" devPlatform 0
           = .ok (⟨.mocked, 0⟩, 0 + 1)
       ∧ SoilMonitorFactory.get_soil_monitor _soil_monitor_factory "adafruitstemma" devPlatform 0
           = .ok (⟨.adafruitStemma (_AdafruitStemmaSoilMonitor.init devPlatform), 0⟩, 0 + 1)) :=
  ⟨by decide, by decide,
    factory_unknown_key_keyError "nosuchkey" devPlatform 0 (by decide) (by decide)⟩

/-- C2 counterexample: the outcome selecting the draw `101` of
`random.randint(0, 101)` makes the simulated saturation equal to `101`,
which is outside the claimed inclusive-exclusive range `[0, 101)`. -/
theorem mocked_saturation_exceeds_claimed_bound :
    _MockedSoilMonitor.get_soil_saturation 101 = 101
    ∧ ¬ (_MockedSoilMonitor.get_soil_saturation 101 < 101) := by decide

/-- C2 amended: for every outcome of the random source, the simulated
backend's saturation is an integer in the inclusive range `[0, 101]`
(Python's `randint` includes both endpoints). -/
theorem mocked_saturation_between_0_and_101 (r : Nat) :
    0 ≤ _MockedSoilMonitor.get_soil_saturation r
    ∧ _MockedSoilMonitor.get_soil_saturation r ≤ 101 := by
  unfold _MockedSoilMonitor.get_soil_saturation randint
  constructor
  · have := Int.emod_nonneg (r : Int) (by norm_num : ((101:Int) - 0 + 1) ≠ 0)
    omega
  · have := Int.emod_lt_of_pos (r : Int) (by norm_num : (0:Int) < 101 - 0 + 1)
    omega

/-- C3 counterexample: with the default configuration on the development
platform, startup does not satisfy the single-backend invariant — the soil
service and the health service hold distinct backend instances and two
instances are constructed. -/
theorem startup_single_backend_invariant_false :
    ¬ single_backend_invariant none devPlatform 0 := by
  intro h
  exact absurd (h ⟨⟨.mocked, 0⟩, ⟨0, ⟨.mocked, 1⟩⟩, 2⟩ rfl).2 (by decide)

/-- C3 amended: startup constructs exactly two backend instances — the
module-level one of `services/soil.py` read by the status service, and a
second one owned by the health service — each built once at startup; the two
are distinct objects of the same (mocked) backend class. -/
theorem startup_two_backend_instances (p : PlatformState) (t0 : Rat) :
    ∃ s, app_startup none p t0 = .ok s
      ∧ s.soil_monitor.objId ≠ s.health_service._soil_monitor.objId
      ∧ s.backends_constructed = 2
      ∧ s.soil_monitor.monitor = .mocked
      ∧ s.health_service._soil_monitor.monitor = .mocked := by
  exact ⟨⟨⟨.mocked, 0⟩, ⟨t0, ⟨.mocked, 1⟩⟩, 2⟩, rfl, Nat.zero_ne_one, rfl, rfl, rfl⟩

/-- C4: a hardware backend whose `loaded` flag is false returns the sentinel
`-1` from both read operations without raising, and `get_name` returns the
fixed string `"Adafruit Stemma"` regardless of readiness. -/
theorem adafruit_not_ready_returns_sentinels (m : _AdafruitStemmaSoilMonitor)
    (h : m.loaded = false) :
    m.get_soil_saturation = .ok (-1) ∧ m.get_air_temp = .ok (-1)
    ∧ ∀ m' : _AdafruitStemmaSoilMonitor, m'.get_name = "Adafruit Stemma" := by
  refine ⟨?_, ?_, fun m' => rfl⟩ <;>
    simp [_AdafruitStemmaSoilMonitor.get_soil_saturation,
      _AdafruitStemmaSoilMonitor.get_air_temp, h]

/-- C4 witness: the not-ready hardware backend state produced on a platform
without the driver modules. -/
theorem adafruit_not_ready_returns_sentinels_witness :
    (⟨false, none⟩ : _AdafruitStemmaSoilMonitor).loaded = false
    ∧ ((⟨false, none⟩ : _AdafruitStemmaSoilMonitor).get_soil_saturation = .ok (-1)
       ∧ (⟨false, none⟩ : _AdafruitStemmaSoilMonitor).get_air_temp = .ok (-1)
       ∧ ∀ m' : _AdafruitStemmaSoilMonitor, m'.get_name = "Adafruit Stemma") :=
  ⟨rfl, adafruit_not_ready_returns_sentinels ⟨false, none⟩ rfl⟩

/-- C5: `SoilMonitor` construction selects the mocked backend when the
`soil_monitor` environment variable is unset or empty, and for any other
unrecognized value the constructor — and hence application startup — fails
with an uncaught error instead of deferring the failure to request time. -/
theorem soil_monitor_selection_default_and_failfast (p : PlatformState) (n : Nat)
    (t0 : Rat) (v : String)
    (hv1 : v ≠ "") (hv2 : v ≠ "mocked") (hv3 : v ≠ "adafruitstemma") :
    SoilMonitor.init none p n = .ok (⟨.mocked, n⟩, n + 1)
    ∧ SoilMonitor.init (some "") p n = .ok (⟨.mocked, n⟩, n + 1)
    ∧ SoilMonitor.init (some v) p n = .error (.keyError v)
    ∧ app_startup (some v) p t0 = .error (.keyError v) := by
  have h3 : ∀ k, SoilMonitor.init (some v) p k = .error (.keyError v) := by
    intro k
    simp only [SoilMonitor.init, if_neg hv1]
    exact get_soil_monitor_unregistered v p k hv3 hv2
  refine ⟨rfl, rfl, h3 n, ?_⟩
  simp [app_startup, h3 0]

/-- C5 witness: the unrecognized non-empty value `"gpio"` on the development
platform. -/
theorem soil_monitor_selection_default_and_failfast_witness :
    "gpio" ≠ "" ∧ "gpio" ≠ "mocked" ∧ "gpio" ≠ "adafruitstemma"
    ∧ (SoilMonitor.init none devPlatform 0 = .ok (⟨.mocked, 0⟩, 0 + 1)
       ∧ SoilMonitor.init (some "") devPlatform 0 = .ok (⟨.mocked, 0⟩, 0 + 1)
       ∧ SoilMonitor.init (some "gpio") devPlatform 0 = .error (.keyError "gpio")
       ∧ app_startup (some "gpio") devPlatform 0 = .error (.keyError "gpio")) :=
  ⟨by decide, by decide, by decide,
    soil_monitor_selection_default_and_failfast devPlatform 0 0 "gpio"
      (by decide) (by decide) (by decide)⟩

/-- Helper: the `loaded` flag computed by the hardware constructor is the
conjunction of the two module-presence checks. -/
theorem adafruit_init_loaded_eq (p : PlatformState) :
    (_AdafruitStemmaSoilMonitor.init p).loaded = (p.board_loaded && p.seesaw_loaded) := by
  rcases p with ⟨b, s, d⟩
  cases b <;> cases s <;> rfl

/-- C6: constructing the hardware backend through the factory always
completes (it is never an `Except.error`, for every platform state), and
when either driver module is unavailable the constructor clears the `loaded`
flag instead of raising. -/
theorem adafruit_construction_never_throws (p : PlatformState)
    (h : p.board_loaded = false ∨ p.seesaw_loaded = false) :
    (∀ (q : PlatformState) (n : Nat),
      SoilMonitorFactory.get_soil_monitor _soil_monitor_factory "adafruitstemma" q n
        = .ok (⟨.adafruitStemma (_AdafruitStemmaSoilMonitor.init q), n⟩, n + 1))
    ∧ (_AdafruitStemmaSoilMonitor.init p).loaded = false := by
  refine ⟨fun q n => rfl, ?_⟩
  rw [adafruit_init_loaded_eq]
  rcases h with h | h <;> simp [h]

/-- C6 witness: the development platform, where neither driver module is
present. -/
theorem adafruit_construction_never_throws_witness :
    (devPlatform.board_loaded = false ∨ devPlatform.seesaw_loaded = false)
    ∧ ((∀ (q : PlatformState) (n : Nat),
         SoilMonitorFactory.get_soil_monitor _soil_monitor_factory "adafruitstemma" q n
           = .ok (⟨.adafruitStemma (_AdafruitStemmaSoilMonitor.init q), n⟩, n + 1))
       ∧ (_AdafruitStemmaSoilMonitor.init devPlatform).loaded = false) :=
  ⟨Or.inl rfl, adafruit_construction_never_throws devPlatform (Or.inl rfl)⟩

/-- C7: assuming the clock is non-decreasing (construction no later than the
first reading, first no later than the second), the uptime reported by
`get_health` is the value of `_get_total_app_uptime_seconds`, which is
non-negative and monotonically non-decreasing across calls. -/
theorem health_uptime_nonneg_monotone (h : HealthService) (n1 n2 : Rat)
    (h0 : h._start_time ≤ n1) (h1 : n1 ≤ n2) :
    (h.get_health n1).lookup "uptime" = some (.int (h._get_total_app_uptime_seconds n1))
    ∧ h._get_total_app_uptime_seconds n1 ≤ h._get_total_app_uptime_seconds n2
    ∧ 0 ≤ h._get_total_app_uptime_seconds n1 := by
  have a1 : (0:Rat) ≤ n1 - h._start_time := by linarith
  have a2 : (0:Rat) ≤ n2 - h._start_time := by linarith
  refine ⟨rfl, ?_, ?_⟩ <;>
    unfold HealthService._get_total_app_uptime_seconds pyInt <;>
    rw [if_pos a1]
  · rw [if_pos a2]
    exact Int.floor_le_floor (by linarith)
  · exact Int.floor_nonneg.mpr a1

/-- C7 witness: a health service constructed at clock value 0, read at clock
values 1 and 2. -/
theorem health_uptime_nonneg_monotone_witness :
    ((⟨0, ⟨.mocked, 0⟩⟩ : HealthService)._start_time ≤ 1 ∧ (1:Rat) ≤ 2)
    ∧ (((⟨0, ⟨.mocked, 0⟩⟩ : HealthService).get_health 1).lookup "uptime"
         = some (.int ((⟨0, ⟨.mocked, 0⟩⟩ : HealthService)._get_total_app_uptime_seconds 1))
       ∧ (⟨0, ⟨.mocked, 0⟩⟩ : HealthService)._get_total_app_uptime_seconds 1
           ≤ (⟨0, ⟨.mocked, 0⟩⟩ : HealthService)._get_total_app_uptime_seconds 2
       ∧ 0 ≤ (⟨0, ⟨.mocked, 0⟩⟩ : HealthService)._get_total_app_uptime_seconds 1) :=
  ⟨⟨by norm_num, by norm_num⟩,
    health_uptime_nonneg_monotone ⟨0, ⟨.mocked, 0⟩⟩ 1 2 (by norm_num) (by norm_num)⟩

/-- C8: for every well-formed backend state and every state of the random
source, `get_soil_status` succeeds and returns exactly the keys
`saturation` and `temp`, bound to the backend's saturation reading followed
by its temperature reading, taken in that order. -/
theorem soil_status_exact_keys_in_read_order (m : Monitor) (w : RandStream)
    (hwf : m.wf) :
    ∃ sat w1 temp w2,
      m.get_soil_saturation w = .ok (sat, w1)
      ∧ m.get_air_temp w1 = .ok (temp, w2)
      ∧ SoilService.get_soil_status m w =
          .ok ([("saturation", PyVal.int sat), ("temp", PyVal.rat temp)], w2) := by
  cases m with
  | mocked => exact ⟨_, _, _, _, rfl, rfl, rfl⟩
  | adafruitStemma a =>
    rcases a with ⟨loaded, ss⟩
    cases loaded with
    | false => exact ⟨-1, w, -1, w, rfl, rfl, rfl⟩
    | true =>
      have hs : ss.isSome = true := hwf rfl
      rcases ss with _ | dev
      · simp at hs
      · exact ⟨dev.moisture_read, w, pyRound1 dev.get_temp, w, rfl, rfl, rfl⟩

/-- C8 witness: the mocked backend with a concrete random source. -/
theorem soil_status_exact_keys_in_read_order_witness :
    Monitor.wf .mocked
    ∧ (∃ sat w1 temp w2,
        Monitor.get_soil_saturation .mocked ⟨[5], [0]⟩ = .ok (sat, w1)
        ∧ Monitor.get_air_temp .mocked w1 = .ok (temp, w2)
        ∧ SoilService.get_soil_status .mocked ⟨[5], [0]⟩ =
            .ok ([("saturation", PyVal.int sat), ("temp", PyVal.rat temp)], w2)) :=
  ⟨trivial, soil_status_exact_keys_in_read_order .mocked ⟨[5], [0]⟩ trivial⟩

/-- C9: for every outcome `u` of `random.random()` (contract `0 ≤ u < 1`),
the simulated backend's temperature lies in the half-open interval
`[0, 50)`. -/
theorem mocked_air_temp_in_range (u : Rat) (h0 : 0 ≤ u) (h1 : u < 1) :
    0 ≤ _MockedSoilMonitor.get_air_temp u ∧ _MockedSoilMonitor.get_air_temp u < 50 := by
  unfold _MockedSoilMonitor.get_air_temp uniform
  constructor <;> nlinarith

/-- C9 witness: the outcome `u = 0`. -/
theorem mocked_air_temp_in_range_witness :
    ((0:Rat) ≤ 0 ∧ (0:Rat) < 1)
    ∧ (0 ≤ _MockedSoilMonitor.get_air_temp 0 ∧ _MockedSoilMonitor.get_air_temp 0 < 50) :=
  ⟨⟨le_refl 0, by norm_num⟩, mocked_air_temp_in_range 0 (le_refl 0) (by norm_num)⟩

/-- C10: the health payload depends only on the construction-time clock
value, the current clock value and the backend's name — two health services
whose backends differ only in their sensor readings (same name, same start
time) produce identical payloads, so `get_health` never consults the
moisture or temperature reads. -/
theorem get_health_independent_of_sensor_readings (h1 h2 : HealthService) (now : Rat)
    (hstart : h1._start_time = h2._start_time)
    (hname : h1._soil_monitor.monitor.get_name = h2._soil_monitor.monitor.get_name) :
    h1.get_health now = h2.get_health now := by
  unfold HealthService.get_health HealthService._get_total_app_uptime_seconds
    HealthService._get_current_soil_monitor
  rw [hstart, hname]

/-- C10 witness: two ready hardware backends with different device readings
(moisture 3 vs 99, temperature 20 vs 45) and different object identities
yield the same health payload. -/
theorem get_health_independent_of_sensor_readings_witness :
    ((⟨0, ⟨.adafruitStemma ⟨true, some ⟨3, 20⟩⟩, 0⟩⟩ : HealthService)._start_time
       = (⟨0, ⟨.adafruitStemma ⟨true, some ⟨99, 45⟩⟩, 7⟩⟩ : HealthService)._start_time
     ∧ (⟨0, ⟨.adafruitStemma ⟨true, some ⟨3, 20⟩⟩, 0⟩⟩ :
          HealthService)._soil_monitor.monitor.get_name
       = (⟨0, ⟨.adafruitStemma ⟨true, some ⟨99, 45⟩⟩, 7⟩⟩ :
          HealthService)._soil_monitor.monitor.get_name)
    ∧ (⟨0, ⟨.adafruitStemma ⟨true, some ⟨3, 20⟩⟩, 0⟩⟩ : HealthService).get_health 5
        = (⟨0, ⟨.adafruitStemma ⟨true, some ⟨99, 45⟩⟩, 7⟩⟩ : HealthService).get_health 5 :=
  ⟨⟨rfl, rfl⟩,
    get_health_independent_of_sensor_readings
      ⟨0, ⟨.adafruitStemma ⟨true, some ⟨3, 20⟩⟩, 0⟩⟩
      ⟨0, ⟨.adafruitStemma ⟨true, some ⟨99, 45⟩⟩, 7⟩⟩ 5 rfl rfl⟩
